import Mathlib

/-!
Verification of the KPI-derivation layer of the bataanno dashboard.

The derivation blocks live in the `load_data` functions of `app.py` and the
four country pages. Pandas column arithmetic is element-wise over float64
cells, so each block is embedded as a per-record map. A cell is modelled by
`PFloat`: an exact rational for finite values plus the IEEE special values
that pandas element-wise arithmetic produces (`inf`, `-inf`, `NaN`); a
missing CSV cell loads as `NaN`. numpy/pandas `round` is modelled exactly
over the rationals with its documented round-half-to-even tie rule.
-/

namespace Bataanno

/-- Idealised pandas float64 cell: an exact rational for finite values,
together with the IEEE special values `inf`, `-inf` and `NaN`. A missing
cell in the CSV loads as `nan`. -/
inductive PFloat where
  | num (q : ℚ)
  | inf
  | negInf
  | nan
deriving DecidableEq, Repr

/-- Element-wise subtraction on cells, following IEEE semantics: any
operation on `NaN` is `NaN`, `∞ - ∞` is `NaN`. -/
def PFloat.sub : PFloat → PFloat → PFloat
  | .nan, _ => .nan
  | _, .nan => .nan
  | .num a, .num b => .num (a - b)
  | .num _, .inf => .negInf
  | .num _, .negInf => .inf
  | .inf, .num _ => .inf
  | .inf, .inf => .nan
  | .inf, .negInf => .inf
  | .negInf, .num _ => .negInf
  | .negInf, .inf => .negInf
  | .negInf, .negInf => .nan

/-- Multiplication of a cell by a positive literal constant (the derivation
blocks only ever multiply by 100, 1000 or 5), following IEEE semantics. -/
def PFloat.mulPos : PFloat → ℚ → PFloat
  | .num a, c => .num (a * c)
  | .inf, _ => .inf
  | .negInf, _ => .negInf
  | .nan, _ => .nan

/-- Element-wise division on cells, following IEEE semantics: `a / 0` is
`±∞` for `a ≠ 0` and `NaN` for `a = 0` (all raw denominators are `+0` when
zero), and `NaN` propagates through either operand. -/
def PFloat.div : PFloat → PFloat → PFloat
  | .nan, _ => .nan
  | _, .nan => .nan
  | .num a, .num b =>
      if b = 0 then (if a = 0 then .nan else if 0 < a then .inf else .negInf)
      else .num (a / b)
  | .num _, .inf => .num 0
  | .num _, .negInf => .num 0
  | .inf, .num b => if 0 ≤ b then .inf else .negInf
  | .negInf, .num b => if 0 ≤ b then .negInf else .inf
  | .inf, .inf => .nan
  | .inf, .negInf => .nan
  | .negInf, .inf => .nan
  | .negInf, .negInf => .nan

/-- Round a rational to the nearest integer, ties to the even integer: the
tie rule of numpy (and hence pandas) `round`. -/
def roundHalfEven (q : ℚ) : ℤ :=
  if q - ⌊q⌋ < 1/2 then ⌊q⌋
  else if 1/2 < q - ⌊q⌋ then ⌊q⌋ + 1
  else if ⌊q⌋ % 2 = 0 then ⌊q⌋ else ⌊q⌋ + 1

/-- `round(q, d)` of numpy/pandas on a finite value: round to `d` decimal
digits, ties to even. -/
def roundToDigits (q : ℚ) (d : ℕ) : ℚ :=
  (roundHalfEven (q * (10 ^ d : ℚ)) : ℚ) / (10 ^ d : ℚ)

/-- Pandas `Series.round(d)` on one cell: rounds finite values and leaves
`inf`, `-inf` and `NaN` unchanged. -/
def PFloat.roundTo : PFloat → ℕ → PFloat
  | .num q, d => .num (roundToDigits q d)
  | .inf, _ => .inf
  | .negInf, _ => .negInf
  | .nan, _ => .nan

/-- One row of `service_data.csv` as loaded by `pd.read_csv`: identity
columns plus the numeric raw columns, each numeric cell a `PFloat`
(`nan` when the cell is missing). -/
structure RawUtilityRecord where
  country : String
  city : String
  zone : String
  date : String
  year : Int
  households : PFloat
  workforce : PFloat
  f_workforce : PFloat
  metered : PFloat
  sewer_connections : PFloat
  public_toilets : PFloat
  tests_chlorine : PFloat
  tests_conducted_chlorine : PFloat
  test_passed_chlorine : PFloat
  tests_ecoli : PFloat
  test_conducted_ecoli : PFloat
  tests_passed_ecoli : PFloat
  complaints : PFloat
  resolved : PFloat
  complaint_resolution : PFloat
  w_supplied : PFloat
  total_consumption : PFloat
  ww_capacity : PFloat
  ww_treated : PFloat
  ww_collected : PFloat
  fs_treated : PFloat
  fs_reused : PFloat
  hh_emptied : PFloat
deriving DecidableEq, Repr

/-- A raw record together with the 19 derived columns that `load_data` in
`app.py` adds to the dataframe. -/
structure DerivedKpiRecord where
  raw : RawUtilityRecord
  chlorine_execution_rate : PFloat
  chlorine_pass_rate : PFloat
  ecoli_execution_rate : PFloat
  ecoli_pass_rate : PFloat
  complaint_resolution_efficiency : PFloat
  complaints_per_1000_hh : PFloat
  female_workforce_ratio : PFloat
  connections_per_employee : PFloat
  ww_capacity_utilization : PFloat
  ww_collection_efficiency : PFloat
  ww_treatment_coverage : PFloat
  sewer_connection_density : PFloat
  fs_service_coverage : PFloat
  fs_reuse_rate : PFloat
  water_per_connection : PFloat
  nrw_percentage : PFloat
  metering_coverage : PFloat
  population_estimate : PFloat
  people_per_toilet : PFloat
deriving DecidableEq, Repr

/-- The derived-column block of `load_data` in `app.py` (lines 106-124),
applied to one row: pandas column arithmetic is element-wise, so the block
is this per-row map. `people_per_toilet` divides the already-assigned
unrounded `population_estimate` column (`households * 5`). -/
def deriveRecord (r : RawUtilityRecord) : DerivedKpiRecord where
  raw := r
  chlorine_execution_rate :=
    ((r.tests_conducted_chlorine.div r.tests_chlorine).mulPos 100).roundTo 2
  chlorine_pass_rate :=
    ((r.test_passed_chlorine.div r.tests_conducted_chlorine).mulPos 100).roundTo 2
  ecoli_execution_rate :=
    ((r.test_conducted_ecoli.div r.tests_ecoli).mulPos 100).roundTo 2
  ecoli_pass_rate :=
    ((r.tests_passed_ecoli.div r.test_conducted_ecoli).mulPos 100).roundTo 2
  complaint_resolution_efficiency :=
    ((r.resolved.div r.complaints).mulPos 100).roundTo 2
  complaints_per_1000_hh :=
    ((r.complaints.div r.households).mulPos 1000).roundTo 2
  female_workforce_ratio :=
    ((r.f_workforce.div r.workforce).mulPos 100).roundTo 2
  connections_per_employee :=
    (r.metered.div r.workforce).roundTo 2
  ww_capacity_utilization :=
    ((r.ww_treated.div r.ww_capacity).mulPos 100).roundTo 2
  ww_collection_efficiency :=
    ((r.ww_collected.div r.total_consumption).mulPos 100).roundTo 2
  ww_treatment_coverage :=
    ((r.ww_treated.div r.ww_collected).mulPos 100).roundTo 2
  sewer_connection_density :=
    (r.sewer_connections.div r.households).roundTo 3
  fs_service_coverage :=
    ((r.hh_emptied.div r.households).mulPos 100).roundTo 2
  fs_reuse_rate :=
    ((r.fs_reused.div r.fs_treated).mulPos 100).roundTo 2
  water_per_connection :=
    (r.w_supplied.div r.metered).roundTo 2
  nrw_percentage :=
    (((r.w_supplied.sub r.total_consumption).div r.w_supplied).mulPos 100).roundTo 2
  metering_coverage :=
    ((r.metered.div r.households).mulPos 100).roundTo 2
  population_estimate :=
    r.households.mulPos 5
  people_per_toilet :=
    ((r.households.mulPos 5).div r.public_toilets).roundTo 0

/-- The whole derivation pass of `load_data` over the loaded table: one
derived row per raw row, in table order. -/
def derive (records : List RawUtilityRecord) : List DerivedKpiRecord :=
  records.map deriveRecord

/-- The names of the 19 derived columns of §3. -/
inductive KpiField where
  | chlorine_execution_rate
  | chlorine_pass_rate
  | ecoli_execution_rate
  | ecoli_pass_rate
  | complaint_resolution_efficiency
  | complaints_per_1000_hh
  | female_workforce_ratio
  | connections_per_employee
  | ww_capacity_utilization
  | ww_collection_efficiency
  | ww_treatment_coverage
  | sewer_connection_density
  | fs_service_coverage
  | fs_reuse_rate
  | water_per_connection
  | nrw_percentage
  | metering_coverage
  | population_estimate
  | people_per_toilet
deriving DecidableEq, Repr

/-- The derived columns of `app.py`, viewed one field at a time. -/
def appKpi (f : KpiField) (r : RawUtilityRecord) : PFloat :=
  match f with
  | .chlorine_execution_rate => (deriveRecord r).chlorine_execution_rate
  | .chlorine_pass_rate => (deriveRecord r).chlorine_pass_rate
  | .ecoli_execution_rate => (deriveRecord r).ecoli_execution_rate
  | .ecoli_pass_rate => (deriveRecord r).ecoli_pass_rate
  | .complaint_resolution_efficiency => (deriveRecord r).complaint_resolution_efficiency
  | .complaints_per_1000_hh => (deriveRecord r).complaints_per_1000_hh
  | .female_workforce_ratio => (deriveRecord r).female_workforce_ratio
  | .connections_per_employee => (deriveRecord r).connections_per_employee
  | .ww_capacity_utilization => (deriveRecord r).ww_capacity_utilization
  | .ww_collection_efficiency => (deriveRecord r).ww_collection_efficiency
  | .ww_treatment_coverage => (deriveRecord r).ww_treatment_coverage
  | .sewer_connection_density => (deriveRecord r).sewer_connection_density
  | .fs_service_coverage => (deriveRecord r).fs_service_coverage
  | .fs_reuse_rate => (deriveRecord r).fs_reuse_rate
  | .water_per_connection => (deriveRecord r).water_per_connection
  | .nrw_percentage => (deriveRecord r).nrw_percentage
  | .metering_coverage => (deriveRecord r).metering_coverage
  | .population_estimate => (deriveRecord r).population_estimate
  | .people_per_toilet => (deriveRecord r).people_per_toilet

/-- The full-precision value of each derived column before its `.round`
call (for `population_estimate`, which `app.py` never rounds, the assigned
value itself). -/
def unroundedKpi (f : KpiField) (r : RawUtilityRecord) : PFloat :=
  match f with
  | .chlorine_execution_rate => (r.tests_conducted_chlorine.div r.tests_chlorine).mulPos 100
  | .chlorine_pass_rate => (r.test_passed_chlorine.div r.tests_conducted_chlorine).mulPos 100
  | .ecoli_execution_rate => (r.test_conducted_ecoli.div r.tests_ecoli).mulPos 100
  | .ecoli_pass_rate => (r.tests_passed_ecoli.div r.test_conducted_ecoli).mulPos 100
  | .complaint_resolution_efficiency => (r.resolved.div r.complaints).mulPos 100
  | .complaints_per_1000_hh => (r.complaints.div r.households).mulPos 1000
  | .female_workforce_ratio => (r.f_workforce.div r.workforce).mulPos 100
  | .connections_per_employee => r.metered.div r.workforce
  | .ww_capacity_utilization => (r.ww_treated.div r.ww_capacity).mulPos 100
  | .ww_collection_efficiency => (r.ww_collected.div r.total_consumption).mulPos 100
  | .ww_treatment_coverage => (r.ww_treated.div r.ww_collected).mulPos 100
  | .sewer_connection_density => r.sewer_connections.div r.households
  | .fs_service_coverage => (r.hh_emptied.div r.households).mulPos 100
  | .fs_reuse_rate => (r.fs_reused.div r.fs_treated).mulPos 100
  | .water_per_connection => r.w_supplied.div r.metered
  | .nrw_percentage => ((r.w_supplied.sub r.total_consumption).div r.w_supplied).mulPos 100
  | .metering_coverage => (r.metered.div r.households).mulPos 100
  | .population_estimate => r.households.mulPos 5
  | .people_per_toilet => (r.households.mulPos 5).div r.public_toilets

/-- The digit count passed to `.round` for each derived column (the value
for `population_estimate` is unused: that column is never rounded). -/
def kpiDigits : KpiField → ℕ
  | .sewer_connection_density => 3
  | .people_per_toilet => 0
  | .population_estimate => 0
  | _ => 2

/-- The derived-column block of `load_data` in `pages/1_🇨🇲_Cameroon.py`
(lines 16-29): `some` for the 14 columns that page computes, `none` for the
columns it omits. -/
def cameroonKpi (f : KpiField) (r : RawUtilityRecord) : Option PFloat :=
  match f with
  | .chlorine_execution_rate =>
      some (((r.tests_conducted_chlorine.div r.tests_chlorine).mulPos 100).roundTo 2)
  | .chlorine_pass_rate =>
      some (((r.test_passed_chlorine.div r.tests_conducted_chlorine).mulPos 100).roundTo 2)
  | .ecoli_execution_rate =>
      some (((r.test_conducted_ecoli.div r.tests_ecoli).mulPos 100).roundTo 2)
  | .ecoli_pass_rate =>
      some (((r.tests_passed_ecoli.div r.test_conducted_ecoli).mulPos 100).roundTo 2)
  | .complaint_resolution_efficiency =>
      some (((r.resolved.div r.complaints).mulPos 100).roundTo 2)
  | .complaints_per_1000_hh =>
      some (((r.complaints.div r.households).mulPos 1000).roundTo 2)
  | .female_workforce_ratio =>
      some (((r.f_workforce.div r.workforce).mulPos 100).roundTo 2)
  | .connections_per_employee =>
      some ((r.metered.div r.workforce).roundTo 2)
  | .ww_capacity_utilization =>
      some (((r.ww_treated.div r.ww_capacity).mulPos 100).roundTo 2)
  | .ww_collection_efficiency =>
      some (((r.ww_collected.div r.total_consumption).mulPos 100).roundTo 2)
  | .ww_treatment_coverage =>
      some (((r.ww_treated.div r.ww_collected).mulPos 100).roundTo 2)
  | .fs_reuse_rate =>
      some (((r.fs_reused.div r.fs_treated).mulPos 100).roundTo 2)
  | .metering_coverage =>
      some (((r.metered.div r.households).mulPos 100).roundTo 2)
  | .nrw_percentage =>
      some ((((r.w_supplied.sub r.total_consumption).div r.w_supplied).mulPos 100).roundTo 2)
  | _ => none

/-- The derived-column block of `load_data` in `pages/2_🇱🇸_Lesotho.py`
(lines 15-26): `some` for the 11 columns that page computes. -/
def lesothoKpi (f : KpiField) (r : RawUtilityRecord) : Option PFloat :=
  match f with
  | .chlorine_execution_rate =>
      some (((r.tests_conducted_chlorine.div r.tests_chlorine).mulPos 100).roundTo 2)
  | .chlorine_pass_rate =>
      some (((r.test_passed_chlorine.div r.tests_conducted_chlorine).mulPos 100).roundTo 2)
  | .ecoli_execution_rate =>
      some (((r.test_conducted_ecoli.div r.tests_ecoli).mulPos 100).roundTo 2)
  | .ecoli_pass_rate =>
      some (((r.tests_passed_ecoli.div r.test_conducted_ecoli).mulPos 100).roundTo 2)
  | .complaint_resolution_efficiency =>
      some (((r.resolved.div r.complaints).mulPos 100).roundTo 2)
  | .complaints_per_1000_hh =>
      some (((r.complaints.div r.households).mulPos 1000).roundTo 2)
  | .female_workforce_ratio =>
      some (((r.f_workforce.div r.workforce).mulPos 100).roundTo 2)
  | .connections_per_employee =>
      some ((r.metered.div r.workforce).roundTo 2)
  | .sewer_connection_density =>
      some ((r.sewer_connections.div r.households).roundTo 3)
  | .metering_coverage =>
      some (((r.metered.div r.households).mulPos 100).roundTo 2)
  | .nrw_percentage =>
      some ((((r.w_supplied.sub r.total_consumption).div r.w_supplied).mulPos 100).roundTo 2)
  | _ => none

/-- The derived-column block of `load_data` in `pages/3_🇲🇼_Malawi.py`
(lines 15-27): `some` for the 12 columns that page computes. -/
def malawiKpi (f : KpiField) (r : RawUtilityRecord) : Option PFloat :=
  match f with
  | .chlorine_execution_rate =>
      some (((r.tests_conducted_chlorine.div r.tests_chlorine).mulPos 100).roundTo 2)
  | .chlorine_pass_rate =>
      some (((r.test_passed_chlorine.div r.tests_conducted_chlorine).mulPos 100).roundTo 2)
  | .ecoli_execution_rate =>
      some (((r.test_conducted_ecoli.div r.tests_ecoli).mulPos 100).roundTo 2)
  | .ecoli_pass_rate =>
      some (((r.tests_passed_ecoli.div r.test_conducted_ecoli).mulPos 100).roundTo 2)
  | .complaint_resolution_efficiency =>
      some (((r.resolved.div r.complaints).mulPos 100).roundTo 2)
  | .complaints_per_1000_hh =>
      some (((r.complaints.div r.households).mulPos 1000).roundTo 2)
  | .female_workforce_ratio =>
      some (((r.f_workforce.div r.workforce).mulPos 100).roundTo 2)
  | .connections_per_employee =>
      some ((r.metered.div r.workforce).roundTo 2)
  | .population_estimate =>
      some (r.households.mulPos 5)
  | .people_per_toilet =>
      some (((r.households.mulPos 5).div r.public_toilets).roundTo 0)
  | .metering_coverage =>
      some (((r.metered.div r.households).mulPos 100).roundTo 2)
  | .nrw_percentage =>
      some ((((r.w_supplied.sub r.total_consumption).div r.w_supplied).mulPos 100).roundTo 2)
  | _ => none

/-- The derived-column block of `load_data` in `pages/4_🇺🇬_Uganda.py`
(lines 15-24): `some` for the 10 columns that page computes. -/
def ugandaKpi (f : KpiField) (r : RawUtilityRecord) : Option PFloat :=
  match f with
  | .chlorine_execution_rate =>
      some (((r.tests_conducted_chlorine.div r.tests_chlorine).mulPos 100).roundTo 2)
  | .chlorine_pass_rate =>
      some (((r.test_passed_chlorine.div r.tests_conducted_chlorine).mulPos 100).roundTo 2)
  | .ecoli_execution_rate =>
      some (((r.test_conducted_ecoli.div r.tests_ecoli).mulPos 100).roundTo 2)
  | .ecoli_pass_rate =>
      some (((r.tests_passed_ecoli.div r.test_conducted_ecoli).mulPos 100).roundTo 2)
  | .complaint_resolution_efficiency =>
      some (((r.resolved.div r.complaints).mulPos 100).roundTo 2)
  | .complaints_per_1000_hh =>
      some (((r.complaints.div r.households).mulPos 1000).roundTo 2)
  | .female_workforce_ratio =>
      some (((r.f_workforce.div r.workforce).mulPos 100).roundTo 2)
  | .connections_per_employee =>
      some ((r.metered.div r.workforce).roundTo 2)
  | .metering_coverage =>
      some (((r.metered.div r.households).mulPos 100).roundTo 2)
  | .nrw_percentage =>
      some ((((r.w_supplied.sub r.total_consumption).div r.w_supplied).mulPos 100).roundTo 2)
  | _ => none

/-- Build a raw record in which every numeric column is present and finite,
from the 23 rational column values. -/
def mkRawQ (households workforce f_workforce metered sewer_connections
    public_toilets tests_chlorine tests_conducted_chlorine test_passed_chlorine
    tests_ecoli test_conducted_ecoli tests_passed_ecoli complaints resolved
    complaint_resolution w_supplied total_consumption ww_capacity ww_treated
    ww_collected fs_treated fs_reused hh_emptied : ℚ) : RawUtilityRecord where
  country := "cameroon"
  city := "douala"
  zone := "zone-a"
  date := "Jan 2023"
  year := 2023
  households := .num households
  workforce := .num workforce
  f_workforce := .num f_workforce
  metered := .num metered
  sewer_connections := .num sewer_connections
  public_toilets := .num public_toilets
  tests_chlorine := .num tests_chlorine
  tests_conducted_chlorine := .num tests_conducted_chlorine
  test_passed_chlorine := .num test_passed_chlorine
  tests_ecoli := .num tests_ecoli
  test_conducted_ecoli := .num test_conducted_ecoli
  tests_passed_ecoli := .num tests_passed_ecoli
  complaints := .num complaints
  resolved := .num resolved
  complaint_resolution := .num complaint_resolution
  w_supplied := .num w_supplied
  total_consumption := .num total_consumption
  ww_capacity := .num ww_capacity
  ww_treated := .num ww_treated
  ww_collected := .num ww_collected
  fs_treated := .num fs_treated
  fs_reused := .num fs_reused
  hh_emptied := .num hh_emptied

theorem PFloat.div_num_num (a b : ℚ) (hb : b ≠ 0) :
    PFloat.div (.num a) (.num b) = .num (a / b) := by
  simp [PFloat.div, hb]

theorem PFloat.div_nan (x : PFloat) : x.div .nan = .nan := by
  cases x <;> rfl

/-- C1: on a record whose numeric columns are all present and finite and
whose denominators are non-zero, `load_data` computes each of the 19
derived columns exactly by its §3 formula, as an exact rounded rational. -/
theorem derive_formulas_correct
    (hh wf fw me sc pt tc tcc tpc te tce tpe cm rs cr ws tcn wc wt wl ft fr he : ℚ)
    (d : DerivedKpiRecord)
    (hd : d = deriveRecord (mkRawQ hh wf fw me sc pt tc tcc tpc te tce tpe
      cm rs cr ws tcn wc wt wl ft fr he))
    (hhh : hh ≠ 0) (hwf : wf ≠ 0) (hme : me ≠ 0) (hpt : pt ≠ 0) (htc : tc ≠ 0)
    (htcc : tcc ≠ 0) (hte : te ≠ 0) (htce : tce ≠ 0) (hcm : cm ≠ 0) (hws : ws ≠ 0)
    (htcn : tcn ≠ 0) (hwc : wc ≠ 0) (hwl : wl ≠ 0) (hft : ft ≠ 0) :
    d.chlorine_execution_rate = .num (roundToDigits (tcc / tc * 100) 2) ∧
    d.chlorine_pass_rate = .num (roundToDigits (tpc / tcc * 100) 2) ∧
    d.ecoli_execution_rate = .num (roundToDigits (tce / te * 100) 2) ∧
    d.ecoli_pass_rate = .num (roundToDigits (tpe / tce * 100) 2) ∧
    d.complaint_resolution_efficiency = .num (roundToDigits (rs / cm * 100) 2) ∧
    d.complaints_per_1000_hh = .num (roundToDigits (cm / hh * 1000) 2) ∧
    d.female_workforce_ratio = .num (roundToDigits (fw / wf * 100) 2) ∧
    d.connections_per_employee = .num (roundToDigits (me / wf) 2) ∧
    d.ww_capacity_utilization = .num (roundToDigits (wt / wc * 100) 2) ∧
    d.ww_collection_efficiency = .num (roundToDigits (wl / tcn * 100) 2) ∧
    d.ww_treatment_coverage = .num (roundToDigits (wt / wl * 100) 2) ∧
    d.sewer_connection_density = .num (roundToDigits (sc / hh) 3) ∧
    d.fs_service_coverage = .num (roundToDigits (he / hh * 100) 2) ∧
    d.fs_reuse_rate = .num (roundToDigits (fr / ft * 100) 2) ∧
    d.water_per_connection = .num (roundToDigits (ws / me) 2) ∧
    d.nrw_percentage = .num (roundToDigits ((ws - tcn) / ws * 100) 2) ∧
    d.metering_coverage = .num (roundToDigits (me / hh * 100) 2) ∧
    d.population_estimate = .num (hh * 5) ∧
    d.people_per_toilet = .num (roundToDigits (hh * 5 / pt) 0) := by
  subst hd
  simp [deriveRecord, mkRawQ, PFloat.div, PFloat.mulPos, PFloat.sub,
    PFloat.roundTo, hhh, hwf, hme, hpt, htc, htcc, hte, htce, hcm, hws,
    htcn, hwc, hwl, hft]

theorem derive_formulas_correct_witness :
    (deriveRecord (mkRawQ 1000 50 20 600 300 7 100 85 80 120 110 100
        40 36 3 1000 900 500 400 350 60 30 200)).chlorine_execution_rate
      = .num (roundToDigits (85 / 100 * 100) 2) ∧
    roundToDigits (85 / 100 * 100) 2 = 85 := by
  constructor
  · exact (derive_formulas_correct 1000 50 20 600 300 7 100 85 80 120 110 100
      40 36 3 1000 900 500 400 350 60 30 200 _ rfl
      (by norm_num) (by norm_num) (by norm_num) (by norm_num) (by norm_num)
      (by norm_num) (by norm_num) (by norm_num) (by norm_num) (by norm_num)
      (by norm_num) (by norm_num) (by norm_num) (by norm_num)).1
  · norm_num [roundToDigits, roundHalfEven]

/-- C4: the derivation pass returns exactly one derived row per raw row, in
the same position, for every finite input including the empty one. -/
theorem derive_preserves_length_and_order (S : List RawUtilityRecord) :
    (derive S).length = S.length ∧
    ∀ i : ℕ, (derive S).get? i = Option.map deriveRecord (S.get? i) := by
  refine ⟨by simp [derive], fun i => ?_⟩
  simp [derive, List.getElem?_map]

/-- C6: the deriver is a pure function of its input: on a one-record batch
it always yields exactly the per-record derivation, and equal inputs give
equal outputs on any two runs. -/
theorem derive_deterministic (r : RawUtilityRecord) :
    derive [r] = [deriveRecord r] ∧
    ∀ (l₁ l₂ : List RawUtilityRecord), l₁ = l₂ → derive l₁ = derive l₂ :=
  ⟨rfl, fun _ _ h => by rw [h]⟩

theorem derive_deterministic_witness :
    derive [mkRawQ 1 1 1 1 1 1 1 1 1 1 1 1 1 1 1 1 1 1 1 1 1 1 1]
      = [deriveRecord (mkRawQ 1 1 1 1 1 1 1 1 1 1 1 1 1 1 1 1 1 1 1 1 1 1 1)] ∧
    derive [mkRawQ 1 1 1 1 1 1 1 1 1 1 1 1 1 1 1 1 1 1 1 1 1 1 1]
      = derive [mkRawQ 1 1 1 1 1 1 1 1 1 1 1 1 1 1 1 1 1 1 1 1 1 1 1] :=
  ⟨(derive_deterministic (mkRawQ 1 1 1 1 1 1 1 1 1 1 1 1 1 1 1 1 1 1 1 1 1 1 1)).1,
   (derive_deterministic (mkRawQ 1 1 1 1 1 1 1 1 1 1 1 1 1 1 1 1 1 1 1 1 1 1 1)).2
     [mkRawQ 1 1 1 1 1 1 1 1 1 1 1 1 1 1 1 1 1 1 1 1 1 1 1]
     [mkRawQ 1 1 1 1 1 1 1 1 1 1 1 1 1 1 1 1 1 1 1 1 1 1 1] rfl⟩

/-- C7: `nrw_percentage` is the signed rounded value of
`(w_supplied - total_consumption) / w_supplied * 100` whenever `w_supplied`
is finite non-zero and `total_consumption` finite; no clamping occurs, so
it is negative whenever consumption exceeds supply. -/
theorem nrw_signed_not_clamped (r : RawUtilityRecord) (ws tcn : ℚ)
    (hws : r.w_supplied = .num ws) (htcn : r.total_consumption = .num tcn)
    (h : ws ≠ 0) :
    (deriveRecord r).nrw_percentage = .num (roundToDigits ((ws - tcn) / ws * 100) 2) := by
  simp [deriveRecord, hws, htcn, PFloat.sub, PFloat.div, PFloat.mulPos,
    PFloat.roundTo, h]

theorem nrw_signed_not_clamped_witness :
    (deriveRecord (mkRawQ 1000 50 20 600 300 7 100 85 80 120 110 100
        40 36 3 1000 1200 500 400 350 60 30 200)).nrw_percentage
      = .num (roundToDigits ((1000 - 1200) / 1000 * 100) 2) ∧
    roundToDigits ((1000 - 1200) / 1000 * 100) 2 = -20 := by
  constructor
  · exact nrw_signed_not_clamped (mkRawQ 1000 50 20 600 300 7 100 85 80 120
      110 100 40 36 3 1000 1200 500 400 350 60 30 200) 1000 1200 rfl rfl
      (by norm_num)
  · norm_num [roundToDigits, roundHalfEven]

/-- A fully numeric sample row (households 1000, workforce 50, metered 600,
public_toilets 7, chlorine tests 100 planned / 85 conducted / 80 passed,
supplied 1000, consumed 900, ...). -/
def sampleRecord : RawUtilityRecord :=
  mkRawQ 1000 50 20 600 300 7 100 85 80 120 110 100 40 36 3 1000 900 500 400 350 60 30 200

/-- C3: every derived column is the `.round` of its full-precision value
with digit count 2, except `sewer_connection_density` (3 digits) and
`people_per_toilet` (0 digits); on the sample row this gives
`chlorine_pass_rate = 94.12` and `people_per_toilet = 714`. -/
theorem derive_rounding_contract :
    (∀ (f : KpiField) (r : RawUtilityRecord), f ≠ .population_estimate →
      appKpi f r = (unroundedKpi f r).roundTo (kpiDigits f)) ∧
    kpiDigits .sewer_connection_density = 3 ∧
    kpiDigits .people_per_toilet = 0 ∧
    (∀ f : KpiField, f ≠ .sewer_connection_density → f ≠ .people_per_toilet →
      f ≠ .population_estimate → kpiDigits f = 2) ∧
    (deriveRecord sampleRecord).chlorine_pass_rate = .num (9412 / 100) ∧
    (deriveRecord sampleRecord).people_per_toilet = .num 714 := by
  refine ⟨fun f r h => ?_, rfl, rfl, fun f h1 h2 h3 => ?_, ?_, ?_⟩
  · cases f <;> first | rfl | exact absurd rfl h
  · cases f <;> first | rfl | exact absurd rfl h1 | exact absurd rfl h2 | exact absurd rfl h3
  · norm_num [deriveRecord, sampleRecord, mkRawQ, PFloat.div, PFloat.mulPos,
      PFloat.roundTo, roundToDigits, roundHalfEven]
  · norm_num [deriveRecord, sampleRecord, mkRawQ, PFloat.div, PFloat.mulPos,
      PFloat.roundTo, roundToDigits, roundHalfEven]

theorem derive_rounding_contract_witness :
    appKpi .chlorine_pass_rate sampleRecord
      = (unroundedKpi .chlorine_pass_rate sampleRecord).roundTo
          (kpiDigits .chlorine_pass_rate) :=
  derive_rounding_contract.1 .chlorine_pass_rate sampleRecord (by decide)

/-- C10: a single rounding function (round-half-to-even on the
full-precision value, the documented numpy/pandas `round` mode) is used
with the §3 digit counts by the `app.py` block and by every column any of
the four page blocks computes; on ties it rounds to even (0.125 ↦ 0.12,
0.375 ↦ 0.38), not half-up (0.125 ↦̸ 0.13). -/
theorem rounding_mode_half_even :
    (∀ (f : KpiField) (r : RawUtilityRecord), f ≠ .population_estimate →
      appKpi f r = (unroundedKpi f r).roundTo (kpiDigits f)) ∧
    (∀ (p : KpiField → RawUtilityRecord → Option PFloat),
      p ∈ [cameroonKpi, lesothoKpi, malawiKpi, ugandaKpi] →
      ∀ (f : KpiField) (r : RawUtilityRecord) (v : PFloat),
        f ≠ .population_estimate → p f r = some v →
        v = (unroundedKpi f r).roundTo (kpiDigits f)) ∧
    roundToDigits (1/8) 2 = 12/100 ∧
    roundToDigits (3/8) 2 = 38/100 ∧
    roundToDigits (1/8) 2 ≠ 13/100 := by
  refine ⟨fun f r h => ?_, ?_, ?_, ?_, ?_⟩
  · cases f <;> first | rfl | exact absurd rfl h
  · rintro p hp f r v hne hpf
    simp only [List.mem_cons, List.not_mem_nil, or_false] at hp
    rcases hp with rfl | rfl | rfl | rfl <;> cases f <;>
      simp_all [cameroonKpi, lesothoKpi, malawiKpi, ugandaKpi, unroundedKpi, kpiDigits]
  · norm_num [roundToDigits, roundHalfEven]
  · norm_num [roundToDigits, roundHalfEven]
  · norm_num [roundToDigits, roundHalfEven]

theorem rounding_mode_half_even_witness :
    appKpi .connections_per_employee sampleRecord
      = (unroundedKpi .connections_per_employee sampleRecord).roundTo
          (kpiDigits .connections_per_employee) :=
  rounding_mode_half_even.1 .connections_per_employee sampleRecord (by decide)

/-- C8: every derived column computed by any of the four country-page
blocks agrees exactly (formula and digit count) with the `app.py` block,
which computes all 19 columns; each page thus computes a subset. -/
theorem pages_agree_with_app :
    ∀ (p : KpiField → RawUtilityRecord → Option PFloat),
      p ∈ [cameroonKpi, lesothoKpi, malawiKpi, ugandaKpi] →
      ∀ (f : KpiField) (r : RawUtilityRecord) (v : PFloat),
        p f r = some v → appKpi f r = v := by
  rintro p hp f r v hpf
  simp only [List.mem_cons, List.not_mem_nil, or_false] at hp
  rcases hp with rfl | rfl | rfl | rfl <;> cases f <;>
    simp_all [cameroonKpi, lesothoKpi, malawiKpi, ugandaKpi, appKpi, deriveRecord]

theorem pages_agree_with_app_witness :
    appKpi .nrw_percentage sampleRecord
      = ((((sampleRecord.w_supplied.sub sampleRecord.total_consumption).div
          sampleRecord.w_supplied).mulPos 100).roundTo 2) :=
  pages_agree_with_app cameroonKpi (by simp) .nrw_percentage sampleRecord _ rfl

/-- The sample row with the `workforce` cell missing (a missing CSV cell
loads as `NaN`). -/
def recordMissingWorkforce : RawUtilityRecord :=
  { sampleRecord with workforce := .nan }

/-- C5: a record whose `workforce` cell is missing still derives: the two
columns that divide by `workforce` come out as the `NaN` marker, columns
independent of it (here `metering_coverage`) are computed correctly, and
every other record of the batch is derived normally. -/
theorem missing_workforce_isolated (r : RawUtilityRecord) (m h : ℚ)
    (hwf : r.workforce = .nan) (hme : r.metered = .num m)
    (hhh : r.households = .num h) (h0 : h ≠ 0) :
    (deriveRecord r).female_workforce_ratio = .nan ∧
    (deriveRecord r).connections_per_employee = .nan ∧
    (deriveRecord r).metering_coverage = .num (roundToDigits (m / h * 100) 2) ∧
    ∀ (pre post : List RawUtilityRecord),
      derive (pre ++ r :: post) = derive pre ++ deriveRecord r :: derive post := by
  refine ⟨?_, ?_, ?_, fun pre post => ?_⟩
  · simp [deriveRecord, hwf, PFloat.div_nan, PFloat.mulPos, PFloat.roundTo]
  · simp [deriveRecord, hwf, PFloat.div_nan, PFloat.roundTo]
  · simp [deriveRecord, hme, hhh, PFloat.div, h0, PFloat.mulPos, PFloat.roundTo]
  · simp [derive]

theorem missing_workforce_isolated_witness :
    (deriveRecord recordMissingWorkforce).female_workforce_ratio = .nan ∧
    (deriveRecord recordMissingWorkforce).connections_per_employee = .nan ∧
    (deriveRecord recordMissingWorkforce).metering_coverage
      = .num (roundToDigits (600 / 1000 * 100) 2) := by
  have h := missing_workforce_isolated recordMissingWorkforce 600 1000
    rfl rfl rfl (by norm_num)
  exact ⟨h.1, h.2.1, h.2.2.1⟩

/-- The sample row with `tests_chlorine = 0` while
`tests_conducted_chlorine = 85`. -/
def recordZeroDenom : RawUtilityRecord :=
  { sampleRecord with tests_chlorine := .num 0 }

/-- The sample row with `tests_chlorine = 0` and
`tests_conducted_chlorine = 0`. -/
def recordZeroZero : RawUtilityRecord :=
  { sampleRecord with tests_chlorine := .num 0, tests_conducted_chlorine := .num 0 }

/-- C2 evidence: on a zero denominator the code propagates the raw IEEE
special value through `.round` — `+∞` when the numerator is positive and
`NaN` when it is zero — rather than any explicit undefined marker. -/
theorem zero_denominator_propagates_inf :
    (deriveRecord recordZeroDenom).chlorine_execution_rate = PFloat.inf ∧
    (deriveRecord recordZeroZero).chlorine_execution_rate = PFloat.nan := by
  constructor <;>
    norm_num [deriveRecord, recordZeroDenom, recordZeroZero, sampleRecord,
      mkRawQ, PFloat.div, PFloat.mulPos, PFloat.roundTo]

/-- C9 evidence: `load_data` hands the caller exactly the per-row derived
records and nothing else — in particular no count of rows with an
undefined or failed column, even when such a row (here one whose
`chlorine_execution_rate` is `+∞`) is present in the batch. -/
theorem derive_returns_only_records :
    (∀ S : List RawUtilityRecord, derive S = S.map deriveRecord) ∧
    derive [recordZeroDenom, sampleRecord]
      = [deriveRecord recordZeroDenom, deriveRecord sampleRecord] :=
  ⟨fun _ => rfl, rfl⟩

end Bataanno
